import Mathlib

/-!
Shallow embedding of the StackSummarized browser extension (popup.js,
content.js, background.js), restricted to the summary-requester workflow:
URL validation, question-id extraction, the timeout-bounded HTTP calls,
the orchestration in `summarizeQuestion`, and the retry wrapper.

Strings are modelled as `List Char`.  JavaScript nullable strings are
`Option (List Char)`; JS falsiness of a string is emptiness.  The two
unanchored regexes of `isValidStackOverflowUrl`
(`/https?:\/\/stackoverflow\.com\/questions\/\d+/` and the `/q/` variant)
test whether the pattern occurs anywhere in the input, the optional `s`
expanded into two literal alternatives; `\d+` at the end of an unanchored
test is equivalent to a single digit following the literal prefix.
-/

namespace StackSummarized

/-- JS `\d`: an ASCII decimal digit. -/
def isDigitChar (c : Char) : Bool := '0' ≤ c && c ≤ '9'

/-- Test `startsPatDigit pat s`: holds when `s` begins with the literal characters
`pat` immediately followed by at least one digit: the anchored-at-front
reading of the regex `pat\d+` used by `RegExp.test`. -/
def startsPatDigit : List Char → List Char → Bool
  | [], [] => false
  | [], c :: _ => isDigitChar c
  | _ :: _, [] => false
  | p :: ps, c :: cs => p == c && startsPatDigit ps cs

/-- Unanchored test `containsPatDigit pat s` — `pat` followed by a digit
occurs at some position of `s` (JS `/pat\d+/.test(s)`). -/
def containsPatDigit (pat : List Char) : List Char → Bool
  | [] => false
  | c :: rest => startsPatDigit pat (c :: rest) || containsPatDigit pat rest

/-- Literal part shared by both question-URL regexes: the long form. -/
def soQuestionsPat : List Char := "stackoverflow.com/questions/".data

/-- Literal part shared by both question-URL regexes: the short form. -/
def soQPat : List Char := "stackoverflow.com/q/".data

/-- Function `isValidStackOverflowUrl` from popup.js: `!url` (null / empty) is
rejected, otherwise the two unanchored regexes are tried, the optional `s`
of `https?` expanded into the two scheme literals. -/
def isValidStackOverflowUrl : Option (List Char) → Bool
  | none => false
  | some url =>
    if url.isEmpty then false
    else
      containsPatDigit ("http://".data ++ soQuestionsPat) url ||
      containsPatDigit ("https://".data ++ soQuestionsPat) url ||
      containsPatDigit ("http://".data ++ soQPat) url ||
      containsPatDigit ("https://".data ++ soQPat) url

/-- Longest digit run at the front of a string: the greedy capture `(\d+)`
with nothing after it. -/
def takeDigits : List Char → List Char
  | [] => []
  | c :: cs => if isDigitChar c then c :: takeDigits cs else []

/-- Anchored-at-front match of `pat(\d+)`: when `s` begins with `pat`
followed by at least one digit, return the captured (maximal) digit run. -/
def matchCapture : List Char → List Char → Option (List Char)
  | [], rest => if (takeDigits rest).isEmpty then none else some (takeDigits rest)
  | _ :: _, [] => none
  | p :: ps, c :: cs => if p == c then matchCapture ps cs else none

/-- Leftmost unanchored match of `pat(\d+)` with its capture: the semantics
of JS `s.match(/pat(\d+)/)` returning `match[1]`. -/
def searchCapture (pat : List Char) : List Char → Option (List Char)
  | [] => none
  | c :: rest =>
    match matchCapture pat (c :: rest) with
    | some ds => some ds
    | none => searchCapture pat rest

/-- Function `extractQuestionId` from popup.js: try the `/questions/` pattern first,
then the `/q/` pattern, returning the first capture group, else null. -/
def extractQuestionId (url : List Char) : Option (List Char) :=
  match searchCapture soQuestionsPat url with
  | some ds => some ds
  | none => searchCapture soQPat url


/-! ### HTTP model: `makeApiRequest`, `testBackendHealth` -/

/-- Holds when `pat` occurs at the front of `s` (JS `String.startsWith`). -/
def startsLit : List Char → List Char → Bool
  | [], _ => true
  | _ :: _, [] => false
  | p :: ps, c :: cs => p == c && startsLit ps cs

/-- Holds when `pat` occurs somewhere in `s` (JS `String.includes`). -/
def containsLit (pat : List Char) : List Char → Bool
  | [] => startsLit pat []
  | c :: rest => startsLit pat (c :: rest) || containsLit pat rest

/-- The fixed timeout from popup.js line 4, in milliseconds. -/
def TIMEOUT_MS : Nat := 45000

/-- The parsed JSON bodies the popup inspects: only the string fields
`status`, `summary`, `error` and `detail` are ever read; a missing field
(JS `undefined`) is `none`. -/
structure JsonBody where
  status : Option (List Char)
  summary : Option (List Char)
  error : Option (List Char)
  detail : Option (List Char)
deriving DecidableEq, Repr

/-- An HTTP response body: either text that parses as JSON, or raw text
(on which `JSON.parse` throws). -/
inductive Body
  | json (j : JsonBody)
  | text (t : List Char)
deriving DecidableEq, Repr

/-- What the network does if the request is not aborted first. -/
inductive NetEvent
  | response (status : Nat) (body : Body)
  | netFail
deriving DecidableEq, Repr

/-- The environment of one outbound call: when the network would settle the
fetch (`none` = never), and how. -/
structure FetchBehavior where
  arrival : Option Nat
  event : NetEvent
deriving DecidableEq, Repr

/-- What the `fetch` inside `makeApiRequest` delivers once the
`setTimeout` abort guard is taken into account: an arrival at or after
`TIMEOUT_MS` (or never) is pre-empted by the abort and the fetch rejects
with `AbortError`. -/
inductive FetchOutcome
  | ok (status : Nat) (body : Body)
  | netFail
  | aborted
deriving DecidableEq, Repr

/-- Timeout guard of `makeApiRequest` (popup.js lines 75-76). -/
def effectiveOutcome (fb : FetchBehavior) : FetchOutcome :=
  match fb.arrival with
  | none => .aborted
  | some t =>
    if t < TIMEOUT_MS then
      match fb.event with
      | .response st b => .ok st b
      | .netFail => .netFail
    else .aborted

/-- JS `Response.ok`: status in the 2xx range. -/
def responseOk (status : Nat) : Bool := decide (200 ≤ status ∧ status ≤ 299)

/-- The errors `makeApiRequest` can reject with, by kind:
timeout (`AbortError` rewritten), connectivity (`Failed to fetch`
rewritten), server (thrown for a non-2xx response, message from the
body), or a 2xx body that is not JSON (`response.json()` throws; the
exact browser SyntaxError message is abstracted by the raw text). -/
inductive ApiErr
  | timeout
  | connect
  | server (msg : List Char)
  | badJson (raw : List Char)
deriving DecidableEq, Repr

/-- The `.message` of each rejection, as popup.js builds it. -/
def apiErrMessage : ApiErr → List Char
  | .timeout => "Request timed out after 45 seconds".data
  | .connect => "Cannot connect to backend server. Make sure it\x27s running on localhost:8000".data
  | .server m => m
  | .badJson _ => "Unexpected end of JSON input".data

/-- Error message for a non-2xx response (popup.js lines 92-105): default
`Server returned <status>`; if the body parses as JSON with a truthy
`detail`, that; if it does not parse and the raw text is truthy, that. -/
def serverErrorMessage (status : Nat) (body : Body) : List Char :=
  let dflt := "Server returned ".data ++ (toString status).data
  match body with
  | .json j =>
    match j.detail with
    | some d => if d.isEmpty then dflt else d
    | none => dflt
  | .text t => if t.isEmpty then dflt else t

/-- Function `makeApiRequest` from popup.js.  The non-2xx branch throws inside the
`try`, so its error is caught by the same `catch`: a server message that
contains `Failed to fetch` is rewritten into the connectivity error
(popup.js line 119), exactly as a network-level failure is. -/
def makeApiRequest (fb : FetchBehavior) : Except ApiErr JsonBody :=
  match effectiveOutcome fb with
  | .aborted => .error .timeout
  | .netFail => .error .connect
  | .ok status body =>
    if responseOk status then
      match body with
      | .json j => .ok j
      | .text t => .error (.badJson t)
    else
      let msg := serverErrorMessage status body
      if containsLit "Failed to fetch".data msg then .error .connect
      else .error (.server msg)

/-- Function `testBackendHealth` from popup.js: true iff the GET to `/health`
resolves (2xx JSON), false on any rejection. -/
def testBackendHealth (fb : FetchBehavior) : Bool :=
  match makeApiRequest fb with
  | .ok _ => true
  | .error _ => false

/-! ### Rendering and the `summarizeQuestion` orchestration -/

/-- The rendered state of the `output` element after a run (the transient
loading spinner is overwritten before the run settles). -/
inductive UiState
  | success (summary : List Char)
  | error (message : List Char) (details : Option (List Char))
deriving DecidableEq, Repr

/-- Function `showError` from popup.js: the details line is rendered only when the
`details` argument is truthy (non-null, non-empty). -/
def showError (message : List Char) (details : Option (List Char)) : UiState :=
  .error message
    (match details with
     | some d => if d.isEmpty then none else some d
     | none => none)

/-- Function `showSuccess` from popup.js: the summary is interpolated as-is. -/
def showSuccess (summary : List Char) : UiState := .success summary

/-- One JSON field of `JSON.stringify(result)`, omitted when absent. -/
def stringifyField (key : List Char) (v : Option (List Char)) : List (List Char) :=
  match v with
  | none => []
  | some s => ["\x22".data ++ key ++ "\x22:\x22".data ++ s ++ "\x22".data]

/-- Model of `JSON.stringify(result)` for the bodies of the model (field order of
the original JSON text abstracted to status, summary, error, detail). -/
def stringifyResult (j : JsonBody) : List Char :=
  "\x7b".data ++
    List.intercalate ",".data
      (stringifyField "status".data j.status ++
       stringifyField "summary".data j.summary ++
       stringifyField "error".data j.error ++
       stringifyField "detail".data j.detail) ++
  "\x7d".data

/-- JS truthiness of a possibly-missing string field. -/
def optTruthy : Option (List Char) → Bool
  | none => false
  | some s => !s.isEmpty

/-- The branch on the summarize response (popup.js lines 177-183). -/
def renderResult (j : JsonBody) : UiState :=
  if j.status = some "success".data ∧ optTruthy j.summary = true then
    showSuccess (j.summary.getD [])
  else if j.status = some "error".data then
    showError "Summary generation failed".data j.error
  else
    showError "Unexpected response format".data (some (stringifyResult j))

/-- The outbound calls a run performs, in order. -/
inductive Event
  | healthCall
  | summarizeCall
deriving DecidableEq, Repr

/-- The environment of one `summarizeQuestion` invocation: how the
`/health` GET behaves, the URL of the active tab (`tabs[0].url`, possibly
undefined), and how the `/summarize` POST behaves. -/
structure Env where
  healthFetch : FetchBehavior
  tabUrl : Option (List Char)
  summarizeFetch : FetchBehavior
deriving DecidableEq, Repr

/-- Function `summarizeQuestion` from popup.js: health check first (abort on
failure), then URL validation (abort on failure), then the summarize
POST; any rejection of the POST is caught and rendered.  The computed
`questionId` (line 163) is only logged, so it does not appear in the
model.  The function returns the outbound calls made and the final
rendered state; the enclosing `try`/`catch` makes it total. -/
def summarizeQuestion (env : Env) : List Event × UiState :=
  if testBackendHealth env.healthFetch = false then
    ([.healthCall],
     showError "Backend server is not running".data
       (some "Start your FastAPI server: python main.py".data))
  else if isValidStackOverflowUrl env.tabUrl = false then
    ([.healthCall],
     showError "Not a StackOverflow question page".data
       (some "Please navigate to a StackOverflow question first".data))
  else
    match makeApiRequest env.summarizeFetch with
    | .error e =>
      ([.healthCall, .summarizeCall],
       showError "Failed to summarize question".data (some (apiErrMessage e)))
    | .ok j => ([.healthCall, .summarizeCall], renderResult j)

/-- Running the workflow twice in sequence against the same environment
(the code keeps no state between invocations, so each run sees the same
`Env`). -/
def runTwice (env : Env) : (List Event × UiState) × (List Event × UiState) :=
  (summarizeQuestion env, summarizeQuestion env)

/-! ### The retry wrapper -/

/-- Loop body of `retryWithDelay` (popup.js lines 192-202) over an
attempt-indexed behavior `fn` of the wrapped workflow: `fn i` is what the
i-th call does (`ok` = the promise resolves, `error` = it rejects with
that message).  Returns the outcome of the loop (`none` = the `for` loop ran
out without returning, which JS reports as `undefined`), the number of
calls made, and the total milliseconds slept between attempts. -/
def retryAux {α : Type} (fn : Nat → Except (List Char) α) (delay : Nat) :
    Nat → Nat → Option (Except (List Char) α) × Nat × Nat
  | _, 0 => (none, 0, 0)
  | i, rem + 1 =>
    match fn i with
    | .ok a => (some (.ok a), 1, 0)
    | .error e =>
      if rem = 0 then (some (.error e), 1, 0)
      else
        let r := retryAux fn delay (i + 1) rem
        (r.1, r.2.1 + 1, r.2.2 + delay)

/-- Function `retryWithDelay(fn, maxRetries, delay)` from popup.js. -/
def retryWithDelay {α : Type} (fn : Nat → Except (List Char) α)
    (maxRetries delay : Nat) : Option (Except (List Char) α) × Nat × Nat :=
  retryAux fn delay 0 maxRetries

/-- Function `summarizeWithRetry` from popup.js: run the workflow through
`retryWithDelay` with the default `maxRetries = 2`, `delay = 1000`; if
every attempt rejected, render `All attempts failed` with the last
message of the last error.  Result is the final rendered state (`none` only in the
unreachable zero-attempt case). -/
def summarizeWithRetry (fn : Nat → Except (List Char) UiState) : Option UiState :=
  match (retryWithDelay fn 2 1000).1 with
  | some (.ok ui) => some ui
  | some (.error e) => some (showError "All attempts failed".data (some e))
  | none => none

/-! ### Specification-level vocabulary and concrete test data -/

/-- Declarative reading of the unanchored regex test: `pat` immediately
followed by a digit occurs somewhere in `s`. -/
def occursPatDigit (pat s : List Char) : Prop :=
  ∃ pre d rest, s = pre ++ pat ++ d :: rest ∧ isDigitChar d = true

/-- The five error messages `summarizeQuestion` can render. -/
def knownErrorMessages : List (List Char) :=
  ["Backend server is not running".data,
   "Not a StackOverflow question page".data,
   "Failed to summarize question".data,
   "Summary generation failed".data,
   "Unexpected response format".data]

/-- A URL whose host is `example.com` but which embeds a question URL in
its query string. -/
def embeddedHostUrl : List Char :=
  "https://example.com/?u=https://stackoverflow.com/q/5".data

/-- A healthy `/health` behavior: prompt 200 with a JSON body. -/
def healthyFetch : FetchBehavior :=
  ⟨some 0, .response 200 (.json ⟨some "ok".data, none, none, none⟩)⟩

/-- A summarize behavior answering 200 with status success and summary X. -/
def successFetch : FetchBehavior :=
  ⟨some 10, .response 200 (.json ⟨some "success".data, some "X".data, none, none⟩)⟩

/-- The success body carried by `successFetch`. -/
def successBody : JsonBody := ⟨some "success".data, some "X".data, none, none⟩

/-- A 2xx body with `status:"success"` but an empty `summary`. -/
def emptySummaryBody : JsonBody := ⟨some "success".data, some [], none, none⟩

/-- A valid question-page URL used by the concrete runs. -/
def questionUrl : List Char := "https://stackoverflow.com/questions/123".data

/-- Environment for a fully successful run. -/
def happyEnv : Env := ⟨healthyFetch, some questionUrl, successFetch⟩

/-- Environment whose backend never answers the health probe. -/
def backendDownEnv : Env := ⟨⟨none, .netFail⟩, some questionUrl, successFetch⟩

/-- A 500 response whose JSON `detail` is the string `Failed to fetch`. -/
def spoofedDetailFetch : FetchBehavior :=
  ⟨some 0, .response 500 (.json ⟨none, none, none, some "Failed to fetch".data⟩)⟩

/-- A 500 response whose JSON body has detail field boom. -/
def boomFetch : FetchBehavior :=
  ⟨some 0, .response 500 (.json ⟨none, none, none, some "boom".data⟩)⟩

/-- An attempt-indexed workflow behavior that rejects on both attempts. -/
def alwaysFailFn : Nat → Except (List Char) UiState :=
  fun i => if i = 0 then .error "first failure".data else .error "second failure".data

/-- Environment whose summarize response is 200 with an empty summary. -/
def emptySummaryEnv : Env :=
  ⟨healthyFetch, some questionUrl, ⟨some 0, .response 200 (.json emptySummaryBody)⟩⟩

/-! ### Lemmas about the pattern matchers -/

lemma isEmpty_false_of_ne_nil {s : List Char} (h : s ≠ []) : s.isEmpty = false := by
  cases s with
  | nil => exact absurd rfl h
  | cons c cs => rfl

lemma startsPatDigit_iff (pat : List Char) :
    ∀ s, startsPatDigit pat s = true ↔ ∃ d rest, s = pat ++ d :: rest ∧ isDigitChar d = true := by
  induction pat with
  | nil =>
    intro s
    cases s with
    | nil =>
      simp only [startsPatDigit, List.nil_append]
      constructor
      · intro h; exact absurd h (by simp)
      · rintro ⟨d, rest, h, -⟩; exact absurd h (by simp)
    | cons c cs =>
      simp only [startsPatDigit, List.nil_append]
      constructor
      · intro h; exact ⟨c, cs, rfl, h⟩
      · rintro ⟨d, rest, h, hd⟩
        obtain ⟨rfl, rfl⟩ : c = d ∧ cs = rest := by
          constructor <;> [exact (List.cons.inj h).1; exact (List.cons.inj h).2]
        exact hd
  | cons p ps ih =>
    intro s
    cases s with
    | nil =>
      simp only [startsPatDigit]
      constructor
      · intro h; exact absurd h (by simp)
      · rintro ⟨d, rest, h, -⟩; exact absurd h (by simp)
    | cons c cs =>
      simp only [startsPatDigit, Bool.and_eq_true, beq_iff_eq]
      constructor
      · rintro ⟨rfl, h⟩
        obtain ⟨d, rest, rfl, hd⟩ := (ih cs).1 h
        exact ⟨d, rest, rfl, hd⟩
      · rintro ⟨d, rest, h, hd⟩
        obtain ⟨rfl, rfl⟩ : p = c ∧ cs = ps ++ d :: rest := by
          rw [List.cons_append] at h
          constructor <;> [exact ((List.cons.inj h).1).symm; exact (List.cons.inj h).2]
        exact ⟨rfl, (ih _).2 ⟨d, rest, rfl, hd⟩⟩

lemma containsPatDigit_iff (pat : List Char) :
    ∀ s, containsPatDigit pat s = true ↔ occursPatDigit pat s := by
  intro s
  induction s with
  | nil =>
    simp only [containsPatDigit, occursPatDigit]
    constructor
    · intro h; exact absurd h (by simp)
    · rintro ⟨pre, d, rest, h, -⟩
      rw [List.append_assoc] at h
      rcases List.append_eq_nil.1 h.symm with ⟨-, h2⟩
      rcases List.append_eq_nil.1 h2 with ⟨-, h3⟩
      exact absurd h3 (by simp)
  | cons c cs ih =>
    simp only [containsPatDigit, Bool.or_eq_true]
    constructor
    · rintro (h | h)
      · obtain ⟨d, rest, heq, hd⟩ := (startsPatDigit_iff pat _).1 h
        exact ⟨[], d, rest, by simpa using heq, hd⟩
      · obtain ⟨pre, d, rest, heq, hd⟩ := ih.1 h
        exact ⟨c :: pre, d, rest, by simp [heq], hd⟩
    · rintro ⟨pre, d, rest, heq, hd⟩
      cases pre with
      | nil =>
        left
        exact (startsPatDigit_iff pat _).2 ⟨d, rest, by simpa using heq, hd⟩
      | cons a pre' =>
        right
        refine ih.2 ⟨pre', d, rest, ?_, hd⟩
        rw [List.cons_append, List.cons_append] at heq
        exact (List.cons.inj heq).2

lemma containsPatDigit_append_left {a b s : List Char}
    (h : containsPatDigit (a ++ b) s = true) : containsPatDigit b s = true := by
  obtain ⟨pre, d, rest, heq, hd⟩ := (containsPatDigit_iff _ _).1 h
  exact (containsPatDigit_iff _ _).2 ⟨pre ++ a, d, rest, by simp [heq], hd⟩

lemma takeDigits_digits : ∀ s : List Char, ∀ c ∈ takeDigits s, isDigitChar c = true := by
  intro s
  induction s with
  | nil => intro c hc; exact absurd hc (by simp [takeDigits])
  | cons a as ih =>
    intro c hc
    by_cases ha : isDigitChar a = true
    · rw [takeDigits, if_pos ha] at hc
      rcases List.mem_cons.1 hc with rfl | hmem
      · exact ha
      · exact ih c hmem
    · rw [takeDigits, if_neg ha] at hc
      exact absurd hc (by simp)

lemma matchCapture_digits (pat : List Char) :
    ∀ s ds, matchCapture pat s = some ds → ds ≠ [] ∧ ∀ c ∈ ds, isDigitChar c = true := by
  induction pat with
  | nil =>
    intro s ds h
    rw [matchCapture] at h
    by_cases he : (takeDigits s).isEmpty = true
    · rw [if_pos he] at h; exact absurd h (by simp)
    · rw [if_neg he] at h
      obtain rfl : takeDigits s = ds := Option.some.inj h
      refine ⟨?_, takeDigits_digits s⟩
      intro hnil
      exact he (by simp [hnil])
  | cons p ps ih =>
    intro s ds h
    cases s with
    | nil => exact absurd h (by simp [matchCapture])
    | cons c cs =>
      rw [matchCapture] at h
      by_cases hpc : (p == c) = true
      · rw [if_pos hpc] at h
        exact ih cs ds h
      · rw [if_neg hpc] at h
        exact absurd h (by simp)

lemma matchCapture_of_starts (pat : List Char) :
    ∀ s, startsPatDigit pat s = true → ∃ ds, matchCapture pat s = some ds := by
  induction pat with
  | nil =>
    intro s h
    cases s with
    | nil => exact absurd h (by simp [startsPatDigit])
    | cons c cs =>
      rw [startsPatDigit] at h
      refine ⟨takeDigits (c :: cs), ?_⟩
      rw [matchCapture, if_neg ?_]
      rw [takeDigits, if_pos h]
      simp
  | cons p ps ih =>
    intro s h
    cases s with
    | nil => exact absurd h (by simp [startsPatDigit])
    | cons c cs =>
      rw [startsPatDigit, Bool.and_eq_true] at h
      obtain ⟨ds, hds⟩ := ih cs h.2
      exact ⟨ds, by rw [matchCapture, if_pos h.1]; exact hds⟩

lemma searchCapture_isSome_of_contains (pat : List Char) :
    ∀ s, containsPatDigit pat s = true → ∃ ds, searchCapture pat s = some ds := by
  intro s
  induction s with
  | nil => intro h; exact absurd h (by simp [containsPatDigit])
  | cons c cs ih =>
    intro h
    rw [containsPatDigit, Bool.or_eq_true] at h
    cases hm : matchCapture pat (c :: cs) with
    | some ds => exact ⟨ds, by rw [searchCapture, hm]⟩
    | none =>
      have hst : startsPatDigit pat (c :: cs) = false := by
        by_contra hcontra
        obtain ⟨ds, hds⟩ := matchCapture_of_starts pat (c :: cs)
          (eq_true_of_ne_false (fun hf => hcontra hf))
        exact absurd (hm ▸ hds) (by simp)
      rcases h with h | h
      · exact absurd h (by simp [hst])
      · obtain ⟨ds, hds⟩ := ih h
        exact ⟨ds, by rw [searchCapture, hm]; exact hds⟩

lemma searchCapture_digits (pat : List Char) :
    ∀ s ds, searchCapture pat s = some ds → ds ≠ [] ∧ ∀ c ∈ ds, isDigitChar c = true := by
  intro s
  induction s with
  | nil => intro ds h; exact absurd h (by simp [searchCapture])
  | cons c cs ih =>
    intro ds h
    rw [searchCapture] at h
    cases hm : matchCapture pat (c :: cs) with
    | some ds' =>
      rw [hm] at h
      have hds : ds' = ds := by simpa using h
      subst hds
      exact matchCapture_digits pat _ ds' hm
    | none =>
      rw [hm] at h
      exact ih ds h

/-! ### Lemmas about the orchestration -/

lemma summarizeQuestion_unhealthy (env : Env)
    (h : testBackendHealth env.healthFetch = false) :
    summarizeQuestion env =
      ([Event.healthCall],
       showError "Backend server is not running".data
         (some "Start your FastAPI server: python main.py".data)) := by
  rw [summarizeQuestion, if_pos h]

lemma summarizeQuestion_invalid (env : Env)
    (h1 : testBackendHealth env.healthFetch = true)
    (h2 : isValidStackOverflowUrl env.tabUrl = false) :
    summarizeQuestion env =
      ([Event.healthCall],
       showError "Not a StackOverflow question page".data
         (some "Please navigate to a StackOverflow question first".data)) := by
  rw [summarizeQuestion, if_neg (by simp [h1]), if_pos h2]

lemma summarizeQuestion_of_ok (env : Env) (j : JsonBody)
    (h1 : testBackendHealth env.healthFetch = true)
    (h2 : isValidStackOverflowUrl env.tabUrl = true)
    (hm : makeApiRequest env.summarizeFetch = .ok j) :
    summarizeQuestion env = ([Event.healthCall, Event.summarizeCall], renderResult j) := by
  rw [summarizeQuestion, if_neg (by simp [h1]), if_neg (by simp [h2])]
  simp only [hm]

lemma summarizeQuestion_of_err (env : Env) (e : ApiErr)
    (h1 : testBackendHealth env.healthFetch = true)
    (h2 : isValidStackOverflowUrl env.tabUrl = true)
    (hm : makeApiRequest env.summarizeFetch = .error e) :
    summarizeQuestion env =
      ([Event.healthCall, Event.summarizeCall],
       showError "Failed to summarize question".data (some (apiErrMessage e))) := by
  rw [summarizeQuestion, if_neg (by simp [h1]), if_neg (by simp [h2])]
  simp only [hm]

lemma effectiveOutcome_of_response (fb : FetchBehavior) (t st : Nat) (body : Body)
    (hA : fb.arrival = some t) (hT : t < TIMEOUT_MS)
    (hE : fb.event = .response st body) :
    effectiveOutcome fb = .ok st body := by
  simp only [effectiveOutcome, hA, hE]
  rw [if_pos hT]

lemma makeApiRequest_ok (fb : FetchBehavior) (t st : Nat) (j : JsonBody)
    (hA : fb.arrival = some t) (hT : t < TIMEOUT_MS)
    (hE : fb.event = .response st (.json j)) (hOk : responseOk st = true) :
    makeApiRequest fb = .ok j := by
  simp [makeApiRequest, effectiveOutcome_of_response fb t st _ hA hT hE, hOk]

lemma renderResult_success (j : JsonBody) (s : List Char)
    (hS : j.status = some "success".data) (hSum : j.summary = some s) (hNe : s ≠ []) :
    renderResult j = UiState.success s := by
  rw [renderResult,
    if_pos ⟨hS, by rw [hSum]; simp [optTruthy, isEmpty_false_of_ne_nil hNe]⟩]
  rw [showSuccess, hSum]
  rfl

lemma summarize_success_run (env : Env) (t st : Nat) (j : JsonBody) (s : List Char)
    (hH : testBackendHealth env.healthFetch = true)
    (hU : isValidStackOverflowUrl env.tabUrl = true)
    (hA : env.summarizeFetch.arrival = some t) (hT : t < TIMEOUT_MS)
    (hE : env.summarizeFetch.event = .response st (.json j))
    (hOk : responseOk st = true)
    (hS : j.status = some "success".data) (hSum : j.summary = some s) (hNe : s ≠ []) :
    summarizeQuestion env = ([Event.healthCall, Event.summarizeCall], UiState.success s) := by
  rw [summarizeQuestion_of_ok env j hH hU (makeApiRequest_ok _ t st j hA hT hE hOk),
    renderResult_success j s hS hSum hNe]

/-! ### Lemmas about the retry loop -/

lemma retryAux_succ_eq {α : Type} (fn : Nat → Except (List Char) α) (d i rem : Nat) :
    retryAux fn d i (rem + 1) =
      match fn i with
      | .ok a => (some (.ok a), 1, 0)
      | .error e =>
        if rem = 0 then (some (.error e), 1, 0)
        else
          let r := retryAux fn d (i + 1) rem
          (r.1, r.2.1 + 1, r.2.2 + d) := rfl

lemma retryAux_one {α : Type} (fn : Nat → Except (List Char) α) (d i : Nat) :
    retryAux fn d i 1 =
      match fn i with
      | .ok a => (some (.ok a), 1, 0)
      | .error e => (some (.error e), 1, 0) := rfl

lemma retryAux_two {α : Type} (fn : Nat → Except (List Char) α) (d i : Nat) :
    retryAux fn d i 2 =
      match fn i with
      | .ok a => (some (.ok a), 1, 0)
      | .error _ =>
        match fn (i + 1) with
        | .ok a => (some (.ok a), 2, d)
        | .error e1 => (some (.error e1), 2, d) := by
  show retryAux fn d i (1 + 1) = _
  rw [retryAux_succ_eq]
  cases h0 : fn i with
  | ok a => rfl
  | error e =>
    show (if (1 : Nat) = 0 then (some (Except.error e), 1, 0)
          else
            let r := retryAux fn d (i + 1) 1
            (r.1, r.2.1 + 1, r.2.2 + d)) =
        match fn (i + 1) with
        | Except.ok a => (some (Except.ok a), 2, d)
        | Except.error e1 => (some (Except.error e1), 2, d)
    rw [if_neg (by decide : ¬(1 : Nat) = 0), retryAux_one fn d (i + 1)]
    cases h1 : fn (i + 1) with
    | ok a => simp
    | error e1 => simp

lemma retryWithDelay_two {α : Type} (fn : Nat → Except (List Char) α) :
    retryWithDelay fn 2 1000 =
      match fn 0 with
      | .ok a => (some (.ok a), 1, 0)
      | .error _ =>
        match fn 1 with
        | .ok a => (some (.ok a), 2, 1000)
        | .error e1 => (some (.error e1), 2, 1000) := by
  rw [retryWithDelay, retryAux_two]

/-! ### Claim theorems -/

/-- C2: whenever the backend is healthy, the tab URL is valid, and the
summarize endpoint answers with a 2xx status and a JSON body with
`status:"success"` and a non-empty `summary` string `s`, the requester
renders the Success state containing exactly `s`. -/
theorem success_contract (env : Env) (t st : Nat) (j : JsonBody) (s : List Char)
    (hH : testBackendHealth env.healthFetch = true)
    (hU : isValidStackOverflowUrl env.tabUrl = true)
    (hA : env.summarizeFetch.arrival = some t) (hT : t < TIMEOUT_MS)
    (hE : env.summarizeFetch.event = .response st (.json j))
    (hOk : responseOk st = true)
    (hS : j.status = some "success".data) (hSum : j.summary = some s) (hNe : s ≠ []) :
    (summarizeQuestion env).2 = UiState.success s := by
  rw [summarize_success_run env t st j s hH hU hA hT hE hOk hS hSum hNe]

theorem success_contract_witness :
    (summarizeQuestion happyEnv).2 = UiState.success "X".data :=
  success_contract happyEnv 10 200 successBody "X".data (by decide) (by decide)
    rfl (by decide) rfl (by decide) rfl rfl (by decide)

/-- C3: whenever the health check fails, `summarizeQuestion` performs the
health call only — the summarize endpoint is never called — and renders
the backend-unavailable error; moreover the call trace of every run is either
just the health call or the health call strictly followed by the
summarize call. -/
theorem health_gate (env : Env) (h : testBackendHealth env.healthFetch = false) :
    summarizeQuestion env =
      ([Event.healthCall],
       UiState.error "Backend server is not running".data
         (some "Start your FastAPI server: python main.py".data)) ∧
    Event.summarizeCall ∉ (summarizeQuestion env).1 ∧
    ∀ env' : Env, (summarizeQuestion env').1 = [Event.healthCall] ∨
      (summarizeQuestion env').1 = [Event.healthCall, Event.summarizeCall] := by
  have hmain : summarizeQuestion env =
      ([Event.healthCall],
       UiState.error "Backend server is not running".data
         (some "Start your FastAPI server: python main.py".data)) := by
    rw [summarizeQuestion_unhealthy env h]
    rfl
  refine ⟨hmain, ?_, ?_⟩
  · rw [hmain]
    decide
  · intro env'
    by_cases h1 : testBackendHealth env'.healthFetch = false
    · left
      rw [summarizeQuestion_unhealthy env' h1]
    · have h1' : testBackendHealth env'.healthFetch = true :=
        eq_true_of_ne_false (fun hf => h1 hf)
      by_cases h2 : isValidStackOverflowUrl env'.tabUrl = false
      · left
        rw [summarizeQuestion_invalid env' h1' h2]
      · have h2' : isValidStackOverflowUrl env'.tabUrl = true :=
          eq_true_of_ne_false (fun hf => h2 hf)
        cases hm : makeApiRequest env'.summarizeFetch with
        | ok j =>
          right
          rw [summarizeQuestion_of_ok env' j h1' h2' hm]
        | error e =>
          right
          rw [summarizeQuestion_of_err env' e h1' h2' hm]

theorem health_gate_witness :
    summarizeQuestion backendDownEnv =
      ([Event.healthCall],
       UiState.error "Backend server is not running".data
         (some "Start your FastAPI server: python main.py".data)) :=
  (health_gate backendDownEnv (by decide)).1

/-- C8: two sequential runs against the same environment (same valid URL,
same healthy backend responses) render the same Success output; the
requester is a pure function of its environment, so no state accumulates
between invocations. -/
theorem idempotent_runs (env : Env) (t st : Nat) (j : JsonBody) (s : List Char)
    (hH : testBackendHealth env.healthFetch = true)
    (hU : isValidStackOverflowUrl env.tabUrl = true)
    (hA : env.summarizeFetch.arrival = some t) (hT : t < TIMEOUT_MS)
    (hE : env.summarizeFetch.event = .response st (.json j))
    (hOk : responseOk st = true)
    (hS : j.status = some "success".data) (hSum : j.summary = some s) (hNe : s ≠ []) :
    (runTwice env).1 = (runTwice env).2 ∧
    (runTwice env).1.2 = UiState.success s ∧
    (runTwice env).2.2 = UiState.success s := by
  have hrun : summarizeQuestion env =
      ([Event.healthCall, Event.summarizeCall], UiState.success s) :=
    summarize_success_run env t st j s hH hU hA hT hE hOk hS hSum hNe
  refine ⟨rfl, ?_, ?_⟩ <;> · show (summarizeQuestion env).2 = _
                             rw [hrun]

theorem idempotent_runs_witness :
    (runTwice happyEnv).1 = (runTwice happyEnv).2 ∧
    (runTwice happyEnv).1.2 = UiState.success "X".data ∧
    (runTwice happyEnv).2.2 = UiState.success "X".data :=
  idempotent_runs happyEnv 10 200 successBody "X".data (by decide) (by decide)
    rfl (by decide) rfl (by decide) rfl rfl (by decide)

/-- C10: a 2xx JSON response with `status:"success"` but an empty or
absent `summary` renders the Unexpected-response-format error — not the
Success state and not the Summary-generation-failed branch. -/
theorem unexpected_format (env : Env) (t st : Nat) (j : JsonBody)
    (hH : testBackendHealth env.healthFetch = true)
    (hU : isValidStackOverflowUrl env.tabUrl = true)
    (hA : env.summarizeFetch.arrival = some t) (hT : t < TIMEOUT_MS)
    (hE : env.summarizeFetch.event = .response st (.json j))
    (hOk : responseOk st = true)
    (hS : j.status = some "success".data)
    (hSum : j.summary = some [] ∨ j.summary = none) :
    (summarizeQuestion env).2 =
      UiState.error "Unexpected response format".data (some (stringifyResult j)) ∧
    (∀ s, (summarizeQuestion env).2 ≠ UiState.success s) ∧
    (∀ d, (summarizeQuestion env).2 ≠
      UiState.error "Summary generation failed".data d) := by
  have hapi : makeApiRequest env.summarizeFetch = .ok j :=
    makeApiRequest_ok _ t st j hA hT hE hOk
  have hsumf : optTruthy j.summary = false := by
    rcases hSum with h | h <;> simp [optTruthy, h]
  have hc1 : ¬(j.status = some "success".data ∧ optTruthy j.summary = true) := by
    rintro ⟨-, h2⟩
    rw [hsumf] at h2
    exact Bool.false_ne_true h2
  have hc2 : ¬(j.status = some "error".data) := by
    rw [hS]
    intro hcon
    exact absurd (Option.some.inj hcon) (by decide)
  have hrender : renderResult j =
      UiState.error "Unexpected response format".data (some (stringifyResult j)) := by
    rw [renderResult, if_neg hc1, if_neg hc2]
    simp [showError, show (stringifyResult j).isEmpty = false from rfl]
  have hmain : (summarizeQuestion env).2 =
      UiState.error "Unexpected response format".data (some (stringifyResult j)) := by
    rw [summarizeQuestion_of_ok env j hH hU hapi]
    exact hrender
  refine ⟨hmain, ?_, ?_⟩
  · intro s hcon
    rw [hmain] at hcon
    exact UiState.noConfusion hcon
  · intro d hcon
    rw [hmain] at hcon
    exact absurd (UiState.error.inj hcon).1 (by decide)

theorem unexpected_format_witness :
    (summarizeQuestion emptySummaryEnv).2 =
      UiState.error "Unexpected response format".data
        (some (stringifyResult emptySummaryBody)) :=
  (unexpected_format emptySummaryEnv 0 200 emptySummaryBody (by decide) (by decide)
    rfl (by decide) rfl (by decide) rfl (Or.inl rfl)).1

/-- C4: the timeout bound is a fixed 45 seconds; any call whose response
never arrives, or arrives only at or after the bound, yields the timeout
error regardless of what the response would have been (the in-flight
response is discarded), the timeout error is a kind distinct from every
other error kind, a timed-out health probe reads as unhealthy, and a
timed-out summarize call surfaces the timeout message in the UI. -/
theorem timeout_policy :
    TIMEOUT_MS = 45 * 1000 ∧
    (∀ fb : FetchBehavior, fb.arrival = none →
      makeApiRequest fb = .error ApiErr.timeout) ∧
    (∀ (fb : FetchBehavior) (t : Nat), fb.arrival = some t → TIMEOUT_MS ≤ t →
      makeApiRequest fb = .error ApiErr.timeout) ∧
    (∀ fb : FetchBehavior, fb.arrival = none → testBackendHealth fb = false) ∧
    (ApiErr.timeout ≠ ApiErr.connect ∧
      (∀ m, ApiErr.timeout ≠ ApiErr.server m) ∧
      (∀ r, ApiErr.timeout ≠ ApiErr.badJson r)) ∧
    (∀ env : Env, testBackendHealth env.healthFetch = true →
      isValidStackOverflowUrl env.tabUrl = true →
      env.summarizeFetch.arrival = none →
      (summarizeQuestion env).2 =
        UiState.error "Failed to summarize question".data
          (some (apiErrMessage ApiErr.timeout))) := by
  have habort : ∀ fb : FetchBehavior, fb.arrival = none →
      makeApiRequest fb = .error ApiErr.timeout := by
    intro fb h
    simp [makeApiRequest, effectiveOutcome, h]
  have hlate : ∀ (fb : FetchBehavior) (t : Nat), fb.arrival = some t →
      TIMEOUT_MS ≤ t → makeApiRequest fb = .error ApiErr.timeout := by
    intro fb t h ht
    simp [makeApiRequest, effectiveOutcome, h, Nat.not_lt.mpr ht]
  refine ⟨rfl, habort, hlate, ?_, ⟨?_, ?_, ?_⟩, ?_⟩
  · intro fb h
    rw [testBackendHealth, habort fb h]
  · intro hcon
    exact ApiErr.noConfusion hcon
  · intro m hcon
    exact ApiErr.noConfusion hcon
  · intro r hcon
    exact ApiErr.noConfusion hcon
  · intro env hH hU hnone
    rw [summarizeQuestion_of_err env ApiErr.timeout hH hU (habort _ hnone)]
    rfl

theorem timeout_policy_witness :
    makeApiRequest ⟨none, NetEvent.netFail⟩ = Except.error ApiErr.timeout ∧
    makeApiRequest ⟨some 45000, NetEvent.response 200 (Body.json successBody)⟩ =
      Except.error ApiErr.timeout ∧
    testBackendHealth ⟨none, NetEvent.netFail⟩ = false :=
  ⟨timeout_policy.2.1 _ rfl,
   timeout_policy.2.2.1 _ 45000 rfl (Nat.le_refl _),
   timeout_policy.2.2.2.1 _ rfl⟩

/-- C5 counterexample: a non-2xx (500) response whose JSON `detail` is the
string `Failed to fetch` does not produce a server error at all — the
thrown error is re-caught inside `makeApiRequest` and reclassified as the
connectivity error, whose fixed message is not taken from the body. -/
theorem server_error_counterexample :
    makeApiRequest spoofedDetailFetch = Except.error ApiErr.connect ∧
    ApiErr.connect ≠ ApiErr.server "Failed to fetch".data ∧
    apiErrMessage ApiErr.connect ≠ "Failed to fetch".data :=
  ⟨rfl, by decide, by decide⟩

/-- C5 (amended): for every non-2xx response whose derived message does
not contain `Failed to fetch`, the requester produces a server error
whose message is taken from the response body — a truthy JSON `detail`
field is preferred, raw non-JSON body text is the fallback (the default
`Server returned <status>` covers an empty or detail-less body). -/
theorem server_error_taxonomy (fb : FetchBehavior) (t st : Nat) (body : Body)
    (hA : fb.arrival = some t) (hT : t < TIMEOUT_MS)
    (hE : fb.event = .response st body) (hOk : responseOk st = false)
    (hF : containsLit "Failed to fetch".data (serverErrorMessage st body) = false) :
    makeApiRequest fb = .error (.server (serverErrorMessage st body)) ∧
    (∀ j d, body = .json j → j.detail = some d → d ≠ [] →
      serverErrorMessage st body = d) ∧
    (∀ tx, body = .text tx → tx ≠ [] → serverErrorMessage st body = tx) := by
  refine ⟨?_, ?_, ?_⟩
  · rw [makeApiRequest, effectiveOutcome_of_response fb t st body hA hT hE]
    simp [hOk, hF]
  · rintro j d rfl hd hne
    simp [serverErrorMessage, hd, isEmpty_false_of_ne_nil hne]
  · rintro tx rfl hne
    simp [serverErrorMessage, isEmpty_false_of_ne_nil hne]

theorem server_error_taxonomy_witness :
    makeApiRequest boomFetch =
      Except.error (ApiErr.server
        (serverErrorMessage 500 (Body.json ⟨none, none, none, some "boom".data⟩))) ∧
    serverErrorMessage 500 (Body.json ⟨none, none, none, some "boom".data⟩) =
      "boom".data ∧
    containsLit "boom".data "boom".data = true :=
  ⟨(server_error_taxonomy boomFetch 0 500 _ rfl (by decide) rfl (by decide)
      (by decide)).1,
   by decide, by decide⟩

/-- C6: with the defaults used by `summarizeWithRetry` (2 attempts, 1000
ms delay), `retryWithDelay` makes at most 2 calls of the wrapped
workflow, returns the result of the first attempt when it resolves, retries
exactly once (after one 1000 ms sleep) when the first attempt rejects,
surfaces the last failure when both attempts reject, and
`summarizeWithRetry` then renders All-attempts-failed with that last
message. -/
theorem retry_policy :
    (∀ (α : Type) (fn : Nat → Except (List Char) α),
      (retryWithDelay fn 2 1000).2.1 ≤ 2) ∧
    (∀ (α : Type) (fn : Nat → Except (List Char) α) (a : α),
      fn 0 = .ok a → retryWithDelay fn 2 1000 = (some (.ok a), 1, 0)) ∧
    (∀ (α : Type) (fn : Nat → Except (List Char) α) (e : List Char) (a : α),
      fn 0 = .error e → fn 1 = .ok a →
      retryWithDelay fn 2 1000 = (some (.ok a), 2, 1000)) ∧
    (∀ (α : Type) (fn : Nat → Except (List Char) α) (e0 e1 : List Char),
      fn 0 = .error e0 → fn 1 = .error e1 →
      retryWithDelay fn 2 1000 = (some (.error e1), 2, 1000)) ∧
    (∀ (fn : Nat → Except (List Char) UiState) (e0 e1 : List Char),
      fn 0 = .error e0 → fn 1 = .error e1 →
      summarizeWithRetry fn =
        some (showError "All attempts failed".data (some e1))) := by
  have hboth : ∀ (α : Type) (fn : Nat → Except (List Char) α) (e0 e1 : List Char),
      fn 0 = .error e0 → fn 1 = .error e1 →
      retryWithDelay fn 2 1000 = (some (.error e1), 2, 1000) := by
    intro α fn e0 e1 h0 h1
    rw [retryWithDelay_two fn]
    simp [h0, h1]
  refine ⟨?_, ?_, ?_, hboth, ?_⟩
  · intro α fn
    rw [retryWithDelay_two fn]
    cases h0 : fn 0 with
    | ok a => simp
    | error e =>
      cases h1 : fn 1 with
      | ok a => simp
      | error e1 => simp
  · intro α fn a h0
    rw [retryWithDelay_two fn]
    simp [h0]
  · intro α fn e a h0 h1
    rw [retryWithDelay_two fn]
    simp [h0, h1]
  · intro fn e0 e1 h0 h1
    rw [summarizeWithRetry, hboth UiState fn e0 e1 h0 h1]

theorem retry_policy_witness :
    retryWithDelay alwaysFailFn 2 1000 =
      (some (Except.error "second failure".data), 2, 1000) ∧
    summarizeWithRetry alwaysFailFn =
      some (showError "All attempts failed".data (some "second failure".data)) :=
  ⟨retry_policy.2.2.2.1 UiState alwaysFailFn "first failure".data
      "second failure".data rfl rfl,
   retry_policy.2.2.2.2 alwaysFailFn "first failure".data
      "second failure".data rfl rfl⟩

/-- C7: `summarizeQuestion` is a total function of its environment — every
run settles in a rendered state, which is either the Success state or an
error render whose message is one of the five locally-produced error
messages; no error escapes the UI boundary. -/
theorem errors_confined (env : Env) :
    (∃ s, (summarizeQuestion env).2 = UiState.success s) ∨
    (∃ m d, (summarizeQuestion env).2 = UiState.error m d ∧
      m ∈ knownErrorMessages) := by
  by_cases h1 : testBackendHealth env.healthFetch = false
  · right
    rw [summarizeQuestion_unhealthy env h1]
    exact ⟨"Backend server is not running".data, _, rfl, by decide⟩
  · have h1' : testBackendHealth env.healthFetch = true :=
      eq_true_of_ne_false (fun hf => h1 hf)
    by_cases h2 : isValidStackOverflowUrl env.tabUrl = false
    · right
      rw [summarizeQuestion_invalid env h1' h2]
      exact ⟨"Not a StackOverflow question page".data, _, rfl, by decide⟩
    · have h2' : isValidStackOverflowUrl env.tabUrl = true :=
        eq_true_of_ne_false (fun hf => h2 hf)
      cases hm : makeApiRequest env.summarizeFetch with
      | error e =>
        right
        rw [summarizeQuestion_of_err env e h1' h2' hm]
        exact ⟨"Failed to summarize question".data, _, rfl, by decide⟩
      | ok j =>
        rw [summarizeQuestion_of_ok env j h1' h2' hm]
        by_cases hs : (j.status = some "success".data ∧ optTruthy j.summary = true)
        · left
          rw [renderResult, if_pos hs]
          exact ⟨_, rfl⟩
        · by_cases herr : j.status = some "error".data
          · right
            rw [renderResult, if_neg hs, if_pos herr]
            exact ⟨"Summary generation failed".data, _, rfl, by decide⟩
          · right
            rw [renderResult, if_neg hs, if_neg herr]
            exact ⟨"Unexpected response format".data, _, rfl, by decide⟩

/-- C1 counterexample: the validation patterns are tested unanchored, so
a URL whose host is `example.com` — it does not even begin with the
`stackoverflow.com` origin — is accepted because it embeds
`https://stackoverflow.com/q/5` in its query string; the claim that
every input other than a supported-shape URL is rejected is therefore
false. -/
theorem url_validation_counterexample :
    isValidStackOverflowUrl (some embeddedHostUrl) = true ∧
    startsLit "https://stackoverflow.com/".data embeddedHostUrl = false ∧
    startsLit "http://stackoverflow.com/".data embeddedHostUrl = false :=
  ⟨by decide, by decide, by decide⟩

/-- C1 (amended): `isValidStackOverflowUrl` accepts exactly the non-null
inputs in which `http://` or `https://` followed by
`stackoverflow.com/questions/` or `stackoverflow.com/q/` and a digit
occurs somewhere as a substring.  In particular every URL of a supported
shape is accepted, and null, the empty string, a missing id, a
non-numeric id, and a different host are rejected whenever no such
substring is embedded elsewhere in the input. -/
theorem url_validation :
    (∀ url : List Char, isValidStackOverflowUrl (some url) = true ↔
      (occursPatDigit ("http://".data ++ soQuestionsPat) url ∨
       occursPatDigit ("https://".data ++ soQuestionsPat) url ∨
       occursPatDigit ("http://".data ++ soQPat) url ∨
       occursPatDigit ("https://".data ++ soQPat) url)) ∧
    isValidStackOverflowUrl none = false ∧
    (∀ (d : Char) (rest : List Char), isDigitChar d = true →
      isValidStackOverflowUrl
        (some ("https://stackoverflow.com/questions/".data ++ d :: rest)) = true ∧
      isValidStackOverflowUrl
        (some ("http://stackoverflow.com/questions/".data ++ d :: rest)) = true ∧
      isValidStackOverflowUrl
        (some ("https://stackoverflow.com/q/".data ++ d :: rest)) = true ∧
      isValidStackOverflowUrl
        (some ("http://stackoverflow.com/q/".data ++ d :: rest)) = true) ∧
    isValidStackOverflowUrl (some []) = false ∧
    isValidStackOverflowUrl (some "https://stackoverflow.com/questions/".data) = false ∧
    isValidStackOverflowUrl (some "https://stackoverflow.com/questions/abc".data) = false ∧
    isValidStackOverflowUrl (some "https://github.com/questions/123".data) = false := by
  have hiff : ∀ url : List Char, isValidStackOverflowUrl (some url) = true ↔
      (occursPatDigit ("http://".data ++ soQuestionsPat) url ∨
       occursPatDigit ("https://".data ++ soQuestionsPat) url ∨
       occursPatDigit ("http://".data ++ soQPat) url ∨
       occursPatDigit ("https://".data ++ soQPat) url) := by
    intro url
    cases url with
    | nil =>
      constructor
      · intro h
        exact absurd h (by decide)
      · rintro (h | h | h | h) <;>
          exact absurd ((containsPatDigit_iff _ _).2 h) (by decide)
    | cons c cs =>
      rw [isValidStackOverflowUrl, if_neg (by simp)]
      rw [Bool.or_eq_true, Bool.or_eq_true, Bool.or_eq_true,
        containsPatDigit_iff, containsPatDigit_iff,
        containsPatDigit_iff, containsPatDigit_iff]
      tauto
  refine ⟨hiff, rfl, ?_, by decide, by decide, by decide, by decide⟩
  intro d rest hd
  refine ⟨?_, ?_, ?_, ?_⟩
  · exact (hiff _).2 (Or.inr (Or.inl ⟨[], d, rest, rfl, hd⟩))
  · exact (hiff _).2 (Or.inl ⟨[], d, rest, rfl, hd⟩)
  · exact (hiff _).2 (Or.inr (Or.inr (Or.inr ⟨[], d, rest, rfl, hd⟩)))
  · exact (hiff _).2 (Or.inr (Or.inr (Or.inl ⟨[], d, rest, rfl, hd⟩)))

theorem url_validation_witness :
    isValidStackOverflowUrl
      (some ("https://stackoverflow.com/questions/".data ++ '1' :: [])) = true ∧
    isValidStackOverflowUrl
      (some ("http://stackoverflow.com/questions/".data ++ '1' :: [])) = true ∧
    isValidStackOverflowUrl
      (some ("https://stackoverflow.com/q/".data ++ '1' :: [])) = true ∧
    isValidStackOverflowUrl
      (some ("http://stackoverflow.com/q/".data ++ '1' :: [])) = true :=
  url_validation.2.2.1 '1' [] (by decide)

/-- C9: whenever `isValidStackOverflowUrl` accepts a URL,
`extractQuestionId` returns a non-null, non-empty, purely numeric
string. -/
theorem valid_url_extracts_id (url : List Char)
    (h : isValidStackOverflowUrl (some url) = true) :
    ∃ ds, extractQuestionId url = some ds ∧ ds ≠ [] ∧
      ∀ c ∈ ds, isDigitChar c = true := by
  have h4 : containsPatDigit ("http://".data ++ soQuestionsPat) url = true ∨
      containsPatDigit ("https://".data ++ soQuestionsPat) url = true ∨
      containsPatDigit ("http://".data ++ soQPat) url = true ∨
      containsPatDigit ("https://".data ++ soQPat) url = true := by
    rw [isValidStackOverflowUrl] at h
    by_cases he : url.isEmpty = true
    · rw [if_pos he] at h
      exact absurd h (by simp)
    · rw [if_neg he] at h
      simpa [Bool.or_eq_true, or_assoc] using h
  have hlong : containsPatDigit soQuestionsPat url = true →
      ∃ ds, extractQuestionId url = some ds ∧ ds ≠ [] ∧
        ∀ c ∈ ds, isDigitChar c = true := by
    intro hc
    obtain ⟨ds, hds⟩ := searchCapture_isSome_of_contains _ _ hc
    refine ⟨ds, ?_, searchCapture_digits _ _ _ hds⟩
    rw [extractQuestionId]
    simp only [hds]
  have hshort : containsPatDigit soQPat url = true →
      ∃ ds, extractQuestionId url = some ds ∧ ds ≠ [] ∧
        ∀ c ∈ ds, isDigitChar c = true := by
    intro hc
    cases hq : searchCapture soQuestionsPat url with
    | some ds0 =>
      refine ⟨ds0, ?_, searchCapture_digits _ _ _ hq⟩
      rw [extractQuestionId]
      simp only [hq]
    | none =>
      obtain ⟨ds, hds⟩ := searchCapture_isSome_of_contains _ _ hc
      refine ⟨ds, ?_, searchCapture_digits _ _ _ hds⟩
      rw [extractQuestionId]
      simp only [hq, hds]
  rcases h4 with h' | h' | h' | h'
  · exact hlong (containsPatDigit_append_left h')
  · exact hlong (containsPatDigit_append_left h')
  · exact hshort (containsPatDigit_append_left h')
  · exact hshort (containsPatDigit_append_left h')

theorem valid_url_extracts_id_witness :
    ∃ ds, extractQuestionId questionUrl = some ds ∧ ds ≠ [] ∧
      ∀ c ∈ ds, isDigitChar c = true :=
  valid_url_extracts_id questionUrl (by decide)

end StackSummarized
